import Mathlib

/-!
Verification development for the `lambdakzeroBuilder` single-strange candidate
builder and its companion tasks (`lambdakzeroV0DataLinkBuilder`, process-switch
checks) from `PWGLF/DataModel/LFStrangenessMLTables.h`.

The translation follows the later revision of the builder (the one featuring the
`kV0CrossedRows` selection stage).  Floating point values are modelled by exact
rationals; the external O2 framework pieces that the builder merely calls
(the DCA fitter `DCAFitterN<2>::process`, `TMath::Sqrt`, `RecoDecay::cpa`,
`RecoDecay::sqrtSumOfSquares`, track/covariance accessors) are represented by
their result values, supplied as oracle inputs attached to each candidate;
the builder logic itself — filters, counters, exception containment, emission —
is translated statement by statement from the source.
-/

namespace LambdaKZero

/-! ### Configuration (the builder's `Configurable<...>` members) -/

/-- The builder's topological-selection configurables, with the source's
default values reproduced in `defaultConfig`. -/
structure V0Config where
  tpcrefit : Bool
  mincrossedrows : Int
  dcapostopv : ℚ
  dcanegtopv : ℚ
  v0cospa : ℚ
  dcav0dau : ℚ
  v0radius : ℚ
  deriving Repr, DecidableEq

/-- Hard-coded defaults of the builder's configurables:
`mincrossedrows = 70`, `dcanegtopv = .1`, `dcapostopv = .1`, `v0cospa = 0.995`,
`dcav0dau = 1.0`, `v0radius = 0.9`, `tpcrefit = 0`. -/
def defaultConfig : V0Config :=
  { tpcrefit := false
    mincrossedrows := 70
    dcapostopv := 1/10
    dcanegtopv := 1/10
    v0cospa := 995/1000
    dcav0dau := 1
    v0radius := 9/10 }

/-! ### Startup configuration negotiation (`lambdakzeroBuilder::init`)

The builder walks over every `DeviceSpec` of the running workflow, and for each
device subscribed to the `V0Datas` table folds the device's declared option
defaults into running extrema, starting from the sentinels `100` (minima and
cospa) and `-100` (dcav0dau). -/

/-- One declared option of a workflow device: a name and its default value. -/
structure DeviceOption where
  name : String
  defaultValue : ℚ
  deriving Repr, DecidableEq

/-- A workflow device as seen by the negotiation scan: its name, the table
bindings of its inputs, and its declared options.  (The `V0Covs` branch of the
scan only toggles the independent `createV0CovMats` configurable and is not
modelled.) -/
structure DeviceSpecM where
  name : String
  inputBindings : List String
  options : List DeviceOption
  deriving Repr, DecidableEq

/-- The running extrema of the scan (`loosest_*` locals of `init`). -/
structure LoosestAcc where
  v0cospa : ℚ
  dcav0dau : ℚ
  dcapostopv : ℚ
  dcanegtopv : ℚ
  radius : ℚ
  deriving Repr, DecidableEq

/-- Initial values of the `loosest_*` locals:
`loosest_v0cospa = 100`, `loosest_dcav0dau = -100`, `loosest_dcapostopv = 100`,
`loosest_dcanegtopv = 100`, `loosest_radius = 100`. -/
def initLoosest : LoosestAcc :=
  { v0cospa := 100, dcav0dau := -100, dcapostopv := 100, dcanegtopv := 100, radius := 100 }

/-- `if (detected < loosest) loosest = detected` -/
def keepSmaller (loosest detected : ℚ) : ℚ :=
  if detected < loosest then detected else loosest

/-- `if (detected > loosest) loosest = detected` -/
def keepLarger (loosest detected : ℚ) : ℚ :=
  if detected > loosest then detected else loosest

/-- Folding one declared option of a scanned consumer into the running extrema
(the five `option.name.compare("v0setting_...") == 0` branches of `init`). -/
def scanOption (acc : LoosestAcc) (opt : DeviceOption) : LoosestAcc :=
  let a1 := if opt.name = "v0setting_cospa" then
      { acc with v0cospa := keepSmaller acc.v0cospa opt.defaultValue } else acc
  let a2 := if opt.name = "v0setting_dcav0dau" then
      { a1 with dcav0dau := keepLarger a1.dcav0dau opt.defaultValue } else a1
  let a3 := if opt.name = "v0setting_dcapostopv" then
      { a2 with dcapostopv := keepSmaller a2.dcapostopv opt.defaultValue } else a2
  let a4 := if opt.name = "v0setting_dcanegtopv" then
      { a3 with dcanegtopv := keepSmaller a3.dcanegtopv opt.defaultValue } else a3
  if opt.name = "v0setting_radius" then
      { a4 with radius := keepSmaller a4.radius opt.defaultValue } else a4

/-- Scanning one device: for each of its inputs, if the device is not the
`lambdakzero-initializer`, the input is bound to `V0Datas`, and the device is
not the `multistrange-builder`, fold all of the device's options. -/
def scanDevice (acc : LoosestAcc) (dev : DeviceSpecM) : LoosestAcc :=
  dev.inputBindings.foldl
    (fun a binding =>
      if dev.name = "lambdakzero-initializer" then a
      else if binding = "V0Datas" ∧ dev.name ≠ "multistrange-builder" then
        dev.options.foldl scanOption a
      else a)
    acc

/-- The whole negotiation scan over the workflow's devices. -/
def negotiate (devices : List DeviceSpecM) : LoosestAcc :=
  devices.foldl scanDevice initLoosest

/-- `init` with `d_UseAutodetectMode` enabled overwrites the five threshold
configurables with the scanned extrema (`dcanegtopv.value = loosest_dcanegtopv;`
etc.); with autodetect disabled the configurables are left untouched. -/
def applyAutodetect (cfg : V0Config) (useAutodetect : Bool)
    (devices : List DeviceSpecM) : V0Config :=
  if useAutodetect then
    let l := negotiate devices
    { cfg with
      dcanegtopv := l.dcanegtopv
      dcapostopv := l.dcapostopv
      v0cospa := l.v0cospa
      dcav0dau := l.dcav0dau
      v0radius := l.radius }
  else cfg

/-! ### Declared defaults, as the spec describes them

For stating what the negotiation computes we collect, per option name, the
list of default values the scan examines: one copy of a consumer's matching
options per qualifying `V0Datas` input binding, in scan order. -/

/-- Default values of the options named `nm` in an option list, in order. -/
def optVals (opts : List DeviceOption) (nm : String) : List ℚ :=
  (opts.filter (fun o => o.name == nm)).map (fun o => o.defaultValue)

/-- A device input binding that makes the scan read the device's options:
the device is not the `lambdakzero-initializer`, the input is bound to
`V0Datas`, and the device is not the `multistrange-builder`. -/
def bindingQualifies (devName binding : String) : Prop :=
  devName ≠ "lambdakzero-initializer" ∧
  binding = "V0Datas" ∧ devName ≠ "multistrange-builder"

instance (devName binding : String) :
    Decidable (bindingQualifies devName binding) := by
  unfold bindingQualifies
  infer_instance

/-- Declared defaults for option `nm` over one device, as examined by the
scan (the option list appears once per qualifying `V0Datas` binding). -/
def declaredOfDevice (dev : DeviceSpecM) (nm : String) : List ℚ :=
  dev.inputBindings.foldr
    (fun binding l =>
      if bindingQualifies dev.name binding then optVals dev.options nm ++ l else l)
    []

/-- Declared defaults for option `nm` over the whole workflow, in scan order. -/
def declaredDefaults (devices : List DeviceSpecM) (nm : String) : List ℚ :=
  devices.foldr (fun dev l => declaredOfDevice dev nm ++ l) []

/-- Left fold of `min` with an initial bound. -/
def foldlMin (init : ℚ) (l : List ℚ) : ℚ := l.foldl min init

/-- Left fold of `max` with an initial bound. -/
def foldlMax (init : ℚ) (l : List ℚ) : ℚ := l.foldl max init

/-! ### The staged candidate builder (`lambdakzeroBuilder::buildV0Candidate`)

The `v0step` enum orders the stages
`kV0All, kV0TPCrefit, kV0CrossedRows, kV0DCAxy, kV0DCADau, kV0CosPA, kV0Radius`;
`statisticsRegistry.v0stats` holds one counter per stage. -/

/-- The per-stage counters `statisticsRegistry.v0stats`, one named field per
`v0step` enumerator. -/
structure V0Stats where
  kV0All : ℕ
  kV0TPCrefit : ℕ
  kV0CrossedRows : ℕ
  kV0DCAxy : ℕ
  kV0DCADau : ℕ
  kV0CosPA : ℕ
  kV0Radius : ℕ
  deriving Repr, DecidableEq

/-- All-zero counters, the result of `resetHistos`. -/
def V0Stats.zero : V0Stats := ⟨0, 0, 0, 0, 0, 0, 0⟩

/-- The builder's `statisticsRegistry` bookkeeping struct. -/
structure StatisticsRegistry where
  v0stats : V0Stats
  exceptions : ℕ
  eventCounter : ℕ
  deriving Repr, DecidableEq

/-- `resetHistos` zeroes every counter of the registry. -/
def resetHistos : StatisticsRegistry :=
  { v0stats := V0Stats.zero, exceptions := 0, eventCounter := 0 }

/-- The reusable `v0candidate` scratch struct of the builder. -/
structure V0Candidate where
  posTrackX : ℚ
  negTrackX : ℚ
  pos : ℚ × ℚ × ℚ
  posP : ℚ × ℚ × ℚ
  negP : ℚ × ℚ × ℚ
  dcaV0dau : ℚ
  posDCAxy : ℚ
  negDCAxy : ℚ
  cosPA : ℚ
  V0radius : ℚ
  deriving Repr, DecidableEq

/-- The per-track inputs the builder reads: the `TPCrefit` bit of
`trackType()`, `tpcNClsCrossedRows()`, and the precomputed `dcaXY()`. -/
structure TrackM where
  hasTPCrefit : Bool
  tpcNClsCrossedRows : Int
  dcaXY : ℚ
  deriving Repr, DecidableEq

/-- Quantities the builder reads back from the external `DCAFitterN<2>` and
the external numeric helpers after a successful `fitter.process` call:
`getTrack(i).getX()`, the PCA candidate position, the daughter momenta,
`TMath::Sqrt(fitter.getChi2AtPCACandidate())` (the DCA between daughters),
`RecoDecay::cpa(...)` and `RecoDecay::sqrtSumOfSquares(pos[0], pos[1])`.
These are oracle values: the fitter is outside this repository. -/
structure FitData where
  posTrackX : ℚ
  negTrackX : ℚ
  pos : ℚ × ℚ × ℚ
  posP : ℚ × ℚ × ℚ
  negP : ℚ × ℚ × ℚ
  dcaV0dau : ℚ
  cosPA : ℚ
  V0radius : ℚ
  deriving Repr, DecidableEq

/-- Outcome of the `fitter.process(lPositiveTrack, lNegativeTrack)` call:
either a thrown exception, or a normal return with a candidate count and (when
consulted) the fitted quantities. -/
inductive FitOutcome where
  | throws : FitOutcome
  | ok : ℕ → FitData → FitOutcome
  deriving Repr, DecidableEq

/-- One V0 candidate as the builder sees it: the two daughter prongs and the
oracle outcome of the vertex fit for this pair. -/
structure V0CandInput where
  posTrack : TrackM
  negTrack : TrackM
  fit : FitOutcome
  deriving Repr, DecidableEq

/-- Builder state mutated while processing: the statistics registry and the
`v0candidate` scratch struct.  (`lPositiveTrack` / `lNegativeTrack` are only
used to produce the optional covariance table and are not modelled.) -/
structure BuilderState where
  stats : StatisticsRegistry
  v0candidate : V0Candidate
  deriving Repr, DecidableEq

/-- Result of one `buildV0Candidate` call: the returned boolean, the updated
builder state, and an instrumentation bit recording whether `fitter.process`
was invoked during the call. -/
structure BuildResult where
  accepted : Bool
  state : BuilderState
  fitterInvoked : Bool
  deriving Repr, DecidableEq

/-- Translation of `buildV0Candidate` (later revision, with the crossed-rows
stage).  Each early `return false` of the source is a constructor of the
result; counter increments and scratch-struct assignments happen at exactly
the source's program points. -/
def buildV0Candidate (cfg : V0Config) (st : BuilderState) (c : V0CandInput) :
    BuildResult :=
  -- statisticsRegistry.v0stats[kV0All]++
  let s0 := { st.stats with v0stats := { st.stats.v0stats with
    kV0All := st.stats.v0stats.kV0All + 1 } }
  -- if (tpcrefit) { if (!(posTrack.trackType() & TPCrefit)) return false; ... }
  if cfg.tpcrefit ∧ (¬ c.posTrack.hasTPCrefit = true ∨ ¬ c.negTrack.hasTPCrefit = true) then
    ⟨false, { st with stats := s0 }, false⟩
  else
    -- statisticsRegistry.v0stats[kV0TPCrefit]++
    let s1 := { s0 with v0stats := { s0.v0stats with
      kV0TPCrefit := s0.v0stats.kV0TPCrefit + 1 } }
    -- if (posTrack.tpcNClsCrossedRows() < mincrossedrows || ...) return false
    if c.posTrack.tpcNClsCrossedRows < cfg.mincrossedrows ∨
        c.negTrack.tpcNClsCrossedRows < cfg.mincrossedrows then
      ⟨false, { st with stats := s1 }, false⟩
    else
      -- statisticsRegistry.v0stats[kV0CrossedRows]++
      let s2 := { s1 with v0stats := { s1.v0stats with
        kV0CrossedRows := s1.v0stats.kV0CrossedRows + 1 } }
      -- if (fabs(posTrack.dcaXY()) < dcapostopv || fabs(negTrack.dcaXY()) < dcanegtopv)
      if |c.posTrack.dcaXY| < cfg.dcapostopv ∨ |c.negTrack.dcaXY| < cfg.dcanegtopv then
        ⟨false, { st with stats := s2 }, false⟩
      else
        -- v0candidate.posDCAxy = posTrack.dcaXY(); v0candidate.negDCAxy = ...
        let cand2 := { st.v0candidate with
          posDCAxy := c.posTrack.dcaXY, negDCAxy := c.negTrack.dcaXY }
        -- statisticsRegistry.v0stats[kV0DCAxy]++
        let s3 := { s2 with v0stats := { s2.v0stats with
          kV0DCAxy := s2.v0stats.kV0DCAxy + 1 } }
        -- try { nCand = fitter.process(...); } catch (...) { exceptions++; return false; }
        match c.fit with
        | FitOutcome.throws =>
            ⟨false, ⟨{ s3 with exceptions := s3.exceptions + 1 }, cand2⟩, true⟩
        | FitOutcome.ok nCand d =>
            -- if (nCand == 0) return false
            if nCand = 0 then
              ⟨false, ⟨s3, cand2⟩, true⟩
            else
              -- v0candidate.posTrackX = ...; pos; posP; negP; dcaV0dau = sqrt(chi2)
              let cand3 := { cand2 with
                posTrackX := d.posTrackX, negTrackX := d.negTrackX,
                pos := d.pos, posP := d.posP, negP := d.negP,
                dcaV0dau := d.dcaV0dau }
              -- if (v0candidate.dcaV0dau > dcav0dau) return false
              if cand3.dcaV0dau > cfg.dcav0dau then
                ⟨false, ⟨s3, cand3⟩, true⟩
              else
                -- statisticsRegistry.v0stats[kV0DCADau]++
                let s4 := { s3 with v0stats := { s3.v0stats with
                  kV0DCADau := s3.v0stats.kV0DCADau + 1 } }
                -- v0candidate.cosPA = RecoDecay::cpa(...)
                let cand4 := { cand3 with cosPA := d.cosPA }
                -- if (v0candidate.cosPA < v0cospa) return false
                if cand4.cosPA < cfg.v0cospa then
                  ⟨false, ⟨s4, cand4⟩, true⟩
                else
                  -- statisticsRegistry.v0stats[kV0CosPA]++
                  let s5 := { s4 with v0stats := { s4.v0stats with
                    kV0CosPA := s4.v0stats.kV0CosPA + 1 } }
                  -- v0candidate.V0radius = RecoDecay::sqrtSumOfSquares(...)
                  let cand5 := { cand4 with V0radius := d.V0radius }
                  -- if (v0candidate.V0radius < v0radius) return false
                  if cand5.V0radius < cfg.v0radius then
                    ⟨false, ⟨s5, cand5⟩, true⟩
                  else
                    -- statisticsRegistry.v0stats[kV0Radius]++; return true
                    let s6 := { s5 with v0stats := { s5.v0stats with
                      kV0Radius := s5.v0stats.kV0Radius + 1 } }
                    ⟨true, ⟨s6, cand5⟩, true⟩

/-! ### Batch processing (`lambdakzeroBuilder::buildStrangenessTables`) -/

/-- One row of the input `V0s` table: the index columns the emitter copies
plus the candidate data the builder evaluates. -/
structure V0Entry where
  posTrackId : ℤ
  negTrackId : ℤ
  collisionId : ℤ
  globalIndex : ℤ
  cand : V0CandInput
  deriving Repr, DecidableEq

/-- One row of the produced `v0data` output table (the `StoredV0Datas` cursor
call in `buildStrangenessTables`). -/
structure V0DataRow where
  posTrackId : ℤ
  negTrackId : ℤ
  collisionId : ℤ
  v0Id : ℤ
  posTrackX : ℚ
  negTrackX : ℚ
  pos : ℚ × ℚ × ℚ
  posP : ℚ × ℚ × ℚ
  negP : ℚ × ℚ × ℚ
  dcaV0dau : ℚ
  posDCAxy : ℚ
  negDCAxy : ℚ
  deriving Repr, DecidableEq

/-- The `v0data(...)` emission: index columns from the V0 entry, payload from
the `v0candidate` scratch struct. -/
def mkRow (e : V0Entry) (cand : V0Candidate) : V0DataRow :=
  { posTrackId := e.posTrackId
    negTrackId := e.negTrackId
    collisionId := e.collisionId
    v0Id := e.globalIndex
    posTrackX := cand.posTrackX
    negTrackX := cand.negTrackX
    pos := cand.pos
    posP := cand.posP
    negP := cand.negP
    dcaV0dau := cand.dcaV0dau
    posDCAxy := cand.posDCAxy
    negDCAxy := cand.negDCAxy }

/-- The candidate loop of `buildStrangenessTables`: evaluate each V0, emit a
row exactly when `buildV0Candidate` returned `true`.  (The optional `v0covs`
table, produced from the unmodelled fitter covariances when `createV0CovMats`
is set, is a separate output and is not modelled.) -/
def processCandidates (cfg : V0Config) :
    BuilderState → List V0Entry → BuilderState × List V0DataRow
  | st, [] => (st, [])
  | st, e :: rest =>
      let r := buildV0Candidate cfg st e.cand
      let (st', rows) := processCandidates cfg r.state rest
      if r.accepted then
        (st', mkRow e r.state.v0candidate :: rows)
      else
        (st', rows)

/-- A whole `buildStrangenessTables` call: `statisticsRegistry.eventCounter++`,
the candidate loop, then `fillHistos()` (flushing the registry snapshot to the
monitoring sink) followed by `resetHistos()`.  Returns the emitted rows, the
flushed registry snapshot, and the final builder state. -/
def buildStrangenessTables (cfg : V0Config) (st : BuilderState)
    (V0s : List V0Entry) : List V0DataRow × StatisticsRegistry × BuilderState :=
  let stIn := { st with stats := { st.stats with
    eventCounter := st.stats.eventCounter + 1 } }
  let (stOut, rows) := processCandidates cfg stIn V0s
  (rows, stOut.stats, { stOut with stats := resetHistos })

/-- The stage depth a candidate reaches: the number of `v0stats` counters its
evaluation increments (stages are one-way; a candidate increments the counters
of stages `kV0All .. ` up to where it is rejected, all seven if accepted). -/
def reachedDepth (cfg : V0Config) (c : V0CandInput) : ℕ :=
  if cfg.tpcrefit ∧ (¬ c.posTrack.hasTPCrefit = true ∨ ¬ c.negTrack.hasTPCrefit = true) then 1
  else if c.posTrack.tpcNClsCrossedRows < cfg.mincrossedrows ∨
      c.negTrack.tpcNClsCrossedRows < cfg.mincrossedrows then 2
  else if |c.posTrack.dcaXY| < cfg.dcapostopv ∨ |c.negTrack.dcaXY| < cfg.dcanegtopv then 3
  else match c.fit with
    | FitOutcome.throws => 4
    | FitOutcome.ok nCand d =>
        if nCand = 0 then 4
        else if d.dcaV0dau > cfg.dcav0dau then 4
        else if d.cosPA < cfg.v0cospa then 5
        else if d.V0radius < cfg.v0radius then 6
        else 7

/-- Add one to the counters of the first `d` stages (in `v0step` order). -/
def bumpUpTo (d : ℕ) (s : V0Stats) : V0Stats :=
  { kV0All := s.kV0All + (if 1 ≤ d then 1 else 0)
    kV0TPCrefit := s.kV0TPCrefit + (if 2 ≤ d then 1 else 0)
    kV0CrossedRows := s.kV0CrossedRows + (if 3 ≤ d then 1 else 0)
    kV0DCAxy := s.kV0DCAxy + (if 4 ≤ d then 1 else 0)
    kV0DCADau := s.kV0DCADau + (if 5 ≤ d then 1 else 0)
    kV0CosPA := s.kV0CosPA + (if 6 ≤ d then 1 else 0)
    kV0Radius := s.kV0Radius + (if 7 ≤ d then 1 else 0) }

/-- The monotone-chain invariant of the stage counters, in pipeline order. -/
def statsMono (s : V0Stats) : Prop :=
  s.kV0All ≥ s.kV0TPCrefit ∧ s.kV0TPCrefit ≥ s.kV0CrossedRows ∧
  s.kV0CrossedRows ≥ s.kV0DCAxy ∧ s.kV0DCAxy ≥ s.kV0DCADau ∧
  s.kV0DCADau ≥ s.kV0CosPA ∧ s.kV0CosPA ≥ s.kV0Radius

/-- The pre-fit filters (TPC refit, crossed rows, DCA-to-PV) all pass, i.e.
the candidate reaches the `fitter.process` call. -/
def passesPreFitFilters (cfg : V0Config) (c : V0CandInput) : Prop :=
  ¬ (cfg.tpcrefit ∧ (¬ c.posTrack.hasTPCrefit = true ∨ ¬ c.negTrack.hasTPCrefit = true)) ∧
  ¬ (c.posTrack.tpcNClsCrossedRows < cfg.mincrossedrows ∨
      c.negTrack.tpcNClsCrossedRows < cfg.mincrossedrows) ∧
  ¬ (|c.posTrack.dcaXY| < cfg.dcapostopv ∨ |c.negTrack.dcaXY| < cfg.dcanegtopv)

instance (cfg : V0Config) (c : V0CandInput) :
    Decidable (passesPreFitFilters cfg c) := by
  unfold passesPreFitFilters
  infer_instance

/-- `eventCounter++` at batch entry, as a state. -/
def batchEntryState (st : BuilderState) : BuilderState :=
  { st with stats := { st.stats with eventCounter := st.stats.eventCounter + 1 } }

/-! ### Process-switch validation at `init`

`init` issues `LOGF(fatal, ...)` when none of `processRun2`, `processRun3`,
`processRun3associated` is enabled, or when two of them are enabled together. -/

/-- `true` iff `init` hits one of its four `LOGF(fatal, ...)` branches for the
given process switches. -/
def initProcessFlagsFatal
    (doprocessRun2 doprocessRun3 doprocessRun3associated : Bool) : Bool :=
  if doprocessRun2 = false ∧ doprocessRun3 = false ∧ doprocessRun3associated = false then
    true
  else if doprocessRun2 = true ∧ doprocessRun3 = true then true
  else if doprocessRun2 = true ∧ doprocessRun3associated = true then true
  else if doprocessRun3 = true ∧ doprocessRun3associated = true then true
  else false

/-! ### The V0 → V0Data link builder (`lambdakzeroV0DataLinkBuilder::process`)

The C++ code declares `std::vector<int> lIndices;`, calls
`lIndices.reserve(v0table.size())`, and then assigns and reads
`lIndices[ii]` for `ii` in `[0, v0table.size())`.  `reserve` changes only the
capacity, never the size, and `operator[]` outside `[0, size())` is undefined
behaviour, so the vector is modelled with an explicit size and indexed access
returns `none` out of bounds. -/

/-- A `std::vector<int>`: its constructed elements (`size()` = length) and its
capacity.  `operator[]` is only defined below the size. -/
structure CppIntVector where
  elems : List ℤ
  capacity : ℕ
  deriving Repr, DecidableEq

/-- `reserve(n)`: grows the capacity, leaves the elements (the size) alone. -/
def CppIntVector.reserve (v : CppIntVector) (n : ℕ) : CppIntVector :=
  { v with capacity := max v.capacity n }

/-- `v[i] = x`: defined only for `i < size()`. -/
def CppIntVector.writeAt (v : CppIntVector) (i : ℕ) (x : ℤ) :
    Option CppIntVector :=
  if i < v.elems.length then some { v with elems := v.elems.set i x } else none

/-- `v[i]` read: defined only for `i < size()`. -/
def CppIntVector.readAt (v : CppIntVector) (i : ℕ) : Option ℤ :=
  v.elems[i]?

/-- Translation of `lambdakzeroV0DataLinkBuilder::process`: `nV0s` is
`v0table.size()`, `v0datas` lists each `V0Data` row's `v0Id()` and
`globalIndex()`.  Returns the emitted `v0dataLink` column, or `none` as soon
as an out-of-bounds vector access occurs. -/
def v0DataLinkProcess (nV0s : ℕ) (v0datas : List (ℕ × ℤ)) :
    Option (List ℤ) := do
  let lIndices : CppIntVector := { elems := [], capacity := 0 }
  let lIndices := lIndices.reserve nV0s
  -- for (int ii = 0; ii < v0table.size(); ii++) lIndices[ii] = -1;
  let lIndices ← (List.range nV0s).foldlM
    (fun v ii => v.writeAt ii (-1)) lIndices
  -- for (auto& v0data : v0datatable) lIndices[v0data.v0Id()] = v0data.globalIndex();
  let lIndices ← v0datas.foldlM (fun v p => v.writeAt p.1 p.2) lIndices
  -- for (int ii = 0; ii < v0table.size(); ii++) v0dataLink(lIndices[ii]);
  (List.range nV0s).mapM (fun ii => lIndices.readAt ii)

/-! ### Concrete sample inputs used by the witness theorems

The witness configuration keeps the builder defaults' integer fields and uses
integer-valued thresholds elsewhere so that concrete evaluation stays within
kernel-reducible rational arithmetic. -/

/-- A concrete configuration with integer-valued thresholds. -/
def witnessConfig : V0Config :=
  { tpcrefit := true
    mincrossedrows := 70
    dcapostopv := 1
    dcanegtopv := 1
    v0cospa := 1
    dcav0dau := 1
    v0radius := 1 }

/-- A daughter track that passes every pre-fit filter of `witnessConfig`. -/
def sampleTrack : TrackM :=
  { hasTPCrefit := true, tpcNClsCrossedRows := 80, dcaXY := 2 }

/-- Fit oracle values that pass every post-fit cut of `witnessConfig`. -/
def sampleFitData : FitData :=
  { posTrackX := 1, negTrackX := 1, pos := (3, 4, 0), posP := (1, 0, 0),
    negP := (0, 1, 0), dcaV0dau := 1, cosPA := 1, V0radius := 5 }

/-- A candidate whose vertex fit throws. -/
def throwingCand : V0CandInput :=
  { posTrack := sampleTrack, negTrack := sampleTrack, fit := FitOutcome.throws }

/-- A candidate whose vertex fit returns zero candidates. -/
def zeroCand : V0CandInput :=
  { posTrack := sampleTrack, negTrack := sampleTrack,
    fit := FitOutcome.ok 0 sampleFitData }

/-- A candidate accepted by every stage under `witnessConfig`. -/
def goodCand : V0CandInput :=
  { posTrack := sampleTrack, negTrack := sampleTrack,
    fit := FitOutcome.ok 1 sampleFitData }

/-- A candidate whose positive daughter sits at the primary vertex
(`|dcaXY| = 0 < dcapostopv`), to be caught by the DCA prefilter. -/
def primaryLikeCand : V0CandInput :=
  { posTrack := { sampleTrack with dcaXY := 0 }, negTrack := sampleTrack,
    fit := FitOutcome.ok 1 sampleFitData }

/-- An all-zero `v0candidate` scratch struct. -/
def sampleScratch : V0Candidate :=
  { posTrackX := 0, negTrackX := 0, pos := (0, 0, 0), posP := (0, 0, 0),
    negP := (0, 0, 0), dcaV0dau := 0, posDCAxy := 0, negDCAxy := 0,
    cosPA := 0, V0radius := 0 }

/-- A freshly reset builder state. -/
def sampleState : BuilderState :=
  { stats := resetHistos, v0candidate := sampleScratch }

/-- Wrap a candidate into a V0 table entry with fixed index columns. -/
def sampleEntry (c : V0CandInput) : V0Entry :=
  { posTrackId := 10, negTrackId := 11, collisionId := 3, globalIndex := 7,
    cand := c }

/-! ### Characterisation of the negotiation scan -/

theorem keepSmaller_eq_min (a b : ℚ) : keepSmaller a b = min a b := by
  unfold keepSmaller
  rcases lt_or_ge b a with h | h
  · rw [if_pos h, min_eq_right h.le]
  · rw [if_neg (not_lt.mpr h), min_eq_left h]

theorem keepLarger_eq_max (a b : ℚ) : keepLarger a b = max a b := by
  unfold keepLarger
  rcases lt_or_ge a b with h | h
  · rw [if_pos h, max_eq_right h.le]
  · rw [if_neg (not_lt.mpr h), max_eq_left h]

theorem optVals_nil (nm : String) : optVals [] nm = [] := rfl

theorem optVals_cons (o : DeviceOption) (opts : List DeviceOption) (nm : String) :
    optVals (o :: opts) nm =
      if o.name = nm then o.defaultValue :: optVals opts nm else optVals opts nm := by
  simp only [optVals, List.filter_cons]
  by_cases h : o.name = nm
  · simp [h]
  · simp [h]

theorem foldlMin_cons (a x : ℚ) (l : List ℚ) :
    foldlMin a (x :: l) = foldlMin (min a x) l := rfl

theorem foldlMax_cons (a x : ℚ) (l : List ℚ) :
    foldlMax a (x :: l) = foldlMax (max a x) l := rfl

theorem foldlMin_append (a : ℚ) (l₁ l₂ : List ℚ) :
    foldlMin a (l₁ ++ l₂) = foldlMin (foldlMin a l₁) l₂ := by
  simp [foldlMin, List.foldl_append]

theorem foldlMax_append (a : ℚ) (l₁ l₂ : List ℚ) :
    foldlMax a (l₁ ++ l₂) = foldlMax (foldlMax a l₁) l₂ := by
  simp [foldlMax, List.foldl_append]

/-- One scanned option updates exactly the matching extremum, by `min`
(resp. `max` for `dcav0dau`). -/
theorem scanOption_spec (acc : LoosestAcc) (o : DeviceOption) :
    scanOption acc o =
      { v0cospa := if o.name = "v0setting_cospa" then
            min acc.v0cospa o.defaultValue else acc.v0cospa
        dcav0dau := if o.name = "v0setting_dcav0dau" then
            max acc.dcav0dau o.defaultValue else acc.dcav0dau
        dcapostopv := if o.name = "v0setting_dcapostopv" then
            min acc.dcapostopv o.defaultValue else acc.dcapostopv
        dcanegtopv := if o.name = "v0setting_dcanegtopv" then
            min acc.dcanegtopv o.defaultValue else acc.dcanegtopv
        radius := if o.name = "v0setting_radius" then
            min acc.radius o.defaultValue else acc.radius } := by
  simp only [scanOption, keepSmaller_eq_min, keepLarger_eq_max]
  split_ifs <;> simp_all

/-- Folding a list of options computes, per threshold, the min (resp. max)
fold of the matching declared values. -/
theorem foldOpts_spec (opts : List DeviceOption) (acc : LoosestAcc) :
    opts.foldl scanOption acc =
      { v0cospa := foldlMin acc.v0cospa (optVals opts "v0setting_cospa")
        dcav0dau := foldlMax acc.dcav0dau (optVals opts "v0setting_dcav0dau")
        dcapostopv := foldlMin acc.dcapostopv (optVals opts "v0setting_dcapostopv")
        dcanegtopv := foldlMin acc.dcanegtopv (optVals opts "v0setting_dcanegtopv")
        radius := foldlMin acc.radius (optVals opts "v0setting_radius") } := by
  induction opts generalizing acc with
  | nil => rfl
  | cons o opts ih =>
      rw [List.foldl_cons, ih (scanOption acc o), scanOption_spec]
      simp only [optVals_cons]
      split_ifs <;> simp_all [foldlMin_cons, foldlMax_cons]

/-- Scanning one device folds in, per threshold, the values declared once per
qualifying `V0Datas` binding. -/
theorem scanDevice_spec (dev : DeviceSpecM) (acc : LoosestAcc) :
    scanDevice acc dev =
      { v0cospa := foldlMin acc.v0cospa (declaredOfDevice dev "v0setting_cospa")
        dcav0dau := foldlMax acc.dcav0dau (declaredOfDevice dev "v0setting_dcav0dau")
        dcapostopv := foldlMin acc.dcapostopv (declaredOfDevice dev "v0setting_dcapostopv")
        dcanegtopv := foldlMin acc.dcanegtopv (declaredOfDevice dev "v0setting_dcanegtopv")
        radius := foldlMin acc.radius (declaredOfDevice dev "v0setting_radius") } := by
  obtain ⟨nmD, bs, opts⟩ := dev
  simp only [scanDevice, declaredOfDevice]
  induction bs generalizing acc with
  | nil => rfl
  | cons b bs ih =>
      simp only [List.foldl_cons, List.foldr_cons]
      rw [ih]
      by_cases h1 : nmD = "lambdakzero-initializer"
      · have hq : ¬ bindingQualifies nmD b := by
          simp [bindingQualifies, h1]
        simp [if_pos h1, if_neg hq]
      · by_cases h2 : b = "V0Datas" ∧ nmD ≠ "multistrange-builder"
        · have hq : bindingQualifies nmD b := ⟨h1, h2.1, h2.2⟩
          simp only [if_neg h1, if_pos h2, if_pos hq, foldOpts_spec]
          simp [foldlMin_append, foldlMax_append]
        · have hq : ¬ bindingQualifies nmD b := by
            intro h
            exact h2 ⟨h.2.1, h.2.2⟩
          simp [if_neg h1, if_neg h2, if_neg hq]

/-- Folding the whole device list from an arbitrary accumulator. -/
theorem foldDevices_spec (devices : List DeviceSpecM) (acc : LoosestAcc) :
    devices.foldl scanDevice acc =
      { v0cospa := foldlMin acc.v0cospa (declaredDefaults devices "v0setting_cospa")
        dcav0dau := foldlMax acc.dcav0dau (declaredDefaults devices "v0setting_dcav0dau")
        dcapostopv := foldlMin acc.dcapostopv (declaredDefaults devices "v0setting_dcapostopv")
        dcanegtopv := foldlMin acc.dcanegtopv (declaredDefaults devices "v0setting_dcanegtopv")
        radius := foldlMin acc.radius (declaredDefaults devices "v0setting_radius") } := by
  induction devices generalizing acc with
  | nil => rfl
  | cons dev devices ih =>
      simp only [List.foldl_cons, declaredDefaults, List.foldr_cons]
      rw [ih (scanDevice acc dev), scanDevice_spec]
      simp [declaredDefaults, foldlMin_append, foldlMax_append]

/-- The negotiated extrema are the min (resp. max for `dcav0dau`) of the
declared consumer defaults, clamped at the scan's initial sentinels. -/
theorem negotiate_spec (devices : List DeviceSpecM) :
    negotiate devices =
      { v0cospa := foldlMin 100 (declaredDefaults devices "v0setting_cospa")
        dcav0dau := foldlMax (-100) (declaredDefaults devices "v0setting_dcav0dau")
        dcapostopv := foldlMin 100 (declaredDefaults devices "v0setting_dcapostopv")
        dcanegtopv := foldlMin 100 (declaredDefaults devices "v0setting_dcanegtopv")
        radius := foldlMin 100 (declaredDefaults devices "v0setting_radius") } :=
  foldDevices_spec devices initLoosest

/-! ### Per-candidate behaviour of `buildV0Candidate` -/

/-- One candidate evaluation increments exactly the counters of the prefix of
stages it reached. -/
theorem buildV0Candidate_stats (cfg : V0Config) (st : BuilderState)
    (c : V0CandInput) :
    (buildV0Candidate cfg st c).state.stats.v0stats =
      bumpUpTo (reachedDepth cfg c) st.stats.v0stats := by
  obtain ⟨pt, nt, fit⟩ := c
  cases fit with
  | throws =>
      simp only [buildV0Candidate, reachedDepth]
      split_ifs <;> simp [bumpUpTo]
  | ok n d =>
      simp only [buildV0Candidate, reachedDepth]
      split_ifs <;> simp [bumpUpTo]

/-- A candidate evaluation never touches `eventCounter`, and increments
`exceptions` exactly when the fit throws after the pre-fit filters passed. -/
theorem buildV0Candidate_exceptions (cfg : V0Config) (st : BuilderState)
    (c : V0CandInput) :
    (buildV0Candidate cfg st c).state.stats.exceptions =
      st.stats.exceptions +
        (if passesPreFitFilters cfg c ∧ c.fit = FitOutcome.throws then 1 else 0) := by
  obtain ⟨pt, nt, fit⟩ := c
  cases fit with
  | throws =>
      simp only [buildV0Candidate, passesPreFitFilters]
      split_ifs <;> simp_all
  | ok n d =>
      simp only [buildV0Candidate, passesPreFitFilters]
      split_ifs <;> simp_all

/-- Whether a candidate is accepted does not depend on the incoming mutable
builder state. -/
theorem buildV0Candidate_accepted_irrel (cfg : V0Config)
    (st₁ st₂ : BuilderState) (c : V0CandInput) :
    (buildV0Candidate cfg st₁ c).accepted = (buildV0Candidate cfg st₂ c).accepted := by
  obtain ⟨pt, nt, fit⟩ := c
  cases fit with
  | throws =>
      simp only [buildV0Candidate]
      split_ifs <;> rfl
  | ok n d =>
      simp only [buildV0Candidate]
      split_ifs <;> rfl

/-- Whether the fitter is invoked does not depend on the incoming state. -/
theorem buildV0Candidate_invoked_irrel (cfg : V0Config)
    (st₁ st₂ : BuilderState) (c : V0CandInput) :
    (buildV0Candidate cfg st₁ c).fitterInvoked =
      (buildV0Candidate cfg st₂ c).fitterInvoked := by
  obtain ⟨pt, nt, fit⟩ := c
  cases fit with
  | throws =>
      simp only [buildV0Candidate]
      split_ifs <;> rfl
  | ok n d =>
      simp only [buildV0Candidate]
      split_ifs <;> rfl

/-- On an accepted candidate, every field of the `v0candidate` scratch struct
has been overwritten, so the resulting scratch does not depend on the incoming
state. -/
theorem buildV0Candidate_scratch_irrel (cfg : V0Config)
    (st₁ st₂ : BuilderState) (c : V0CandInput)
    (h : (buildV0Candidate cfg st₁ c).accepted = true) :
    (buildV0Candidate cfg st₁ c).state.v0candidate =
      (buildV0Candidate cfg st₂ c).state.v0candidate := by
  obtain ⟨pt, nt, fit⟩ := c
  cases fit with
  | throws =>
      simp only [buildV0Candidate] at h ⊢
      split_ifs at h ⊢
  | ok n d =>
      simp only [buildV0Candidate] at h ⊢
      split_ifs at h ⊢
      simp_all

/-! ### Batch-level lemmas -/

theorem processCandidates_cons_fst (cfg : V0Config) (st : BuilderState)
    (e : V0Entry) (rest : List V0Entry) :
    (processCandidates cfg st (e :: rest)).1 =
      (processCandidates cfg (buildV0Candidate cfg st e.cand).state rest).1 := by
  rcases hpc : processCandidates cfg (buildV0Candidate cfg st e.cand).state rest
    with ⟨st', rows⟩
  simp only [processCandidates, hpc]
  split <;> rfl

theorem processCandidates_cons_snd (cfg : V0Config) (st : BuilderState)
    (e : V0Entry) (rest : List V0Entry) :
    (processCandidates cfg st (e :: rest)).2 =
      (if (buildV0Candidate cfg st e.cand).accepted then
        [mkRow e (buildV0Candidate cfg st e.cand).state.v0candidate] else []) ++
      (processCandidates cfg (buildV0Candidate cfg st e.cand).state rest).2 := by
  rcases hpc : processCandidates cfg (buildV0Candidate cfg st e.cand).state rest
    with ⟨st', rows⟩
  simp only [processCandidates, hpc]
  split <;> simp

/-- The emitted rows do not depend on the incoming mutable builder state. -/
theorem processCandidates_rows_irrel (cfg : V0Config) :
    ∀ (v0s : List V0Entry) (st₁ st₂ : BuilderState),
      (processCandidates cfg st₁ v0s).2 = (processCandidates cfg st₂ v0s).2 := by
  intro v0s
  induction v0s with
  | nil => intro st₁ st₂; rfl
  | cons e rest ih =>
      intro st₁ st₂
      rw [processCandidates_cons_snd, processCandidates_cons_snd]
      have hacc := buildV0Candidate_accepted_irrel cfg st₁ st₂ e.cand
      by_cases h : (buildV0Candidate cfg st₁ e.cand).accepted = true
      · have h₂ : (buildV0Candidate cfg st₂ e.cand).accepted = true := by
          rw [← hacc]; exact h
        rw [if_pos h, if_pos h₂,
          buildV0Candidate_scratch_irrel cfg st₁ st₂ e.cand h,
          ih (buildV0Candidate cfg st₁ e.cand).state (buildV0Candidate cfg st₂ e.cand).state]
      · have h₂ : ¬ (buildV0Candidate cfg st₂ e.cand).accepted = true := by
          rw [← hacc]; exact h
        rw [if_neg h, if_neg h₂,
          ih (buildV0Candidate cfg st₁ e.cand).state (buildV0Candidate cfg st₂ e.cand).state]

/-- Processing a concatenation: the final state threads through, and the rows
concatenate. -/
theorem processCandidates_append (cfg : V0Config) :
    ∀ (xs ys : List V0Entry) (st : BuilderState),
      (processCandidates cfg st (xs ++ ys)).1 =
        (processCandidates cfg (processCandidates cfg st xs).1 ys).1 ∧
      (processCandidates cfg st (xs ++ ys)).2 =
        (processCandidates cfg st xs).2 ++
          (processCandidates cfg (processCandidates cfg st xs).1 ys).2 := by
  intro xs
  induction xs with
  | nil => intro ys st; exact ⟨rfl, rfl⟩
  | cons e rest ih =>
      intro ys st
      constructor
      · rw [List.cons_append, processCandidates_cons_fst,
          (ih ys (buildV0Candidate cfg st e.cand).state).1, processCandidates_cons_fst]
      · rw [List.cons_append, processCandidates_cons_snd,
          (ih ys (buildV0Candidate cfg st e.cand).state).2,
          processCandidates_cons_snd, processCandidates_cons_fst,
          List.append_assoc]

theorem bumpUpTo_mono (d : ℕ) (s : V0Stats) (h : statsMono s) :
    statsMono (bumpUpTo d s) := by
  simp only [statsMono, bumpUpTo] at h ⊢
  split_ifs <;> omega

theorem statsMono_zero : statsMono V0Stats.zero := by
  simp [statsMono, V0Stats.zero]

/-- Stage-counter monotonicity is preserved along the candidate loop. -/
theorem processCandidates_stats_mono (cfg : V0Config) :
    ∀ (v0s : List V0Entry) (st : BuilderState),
      statsMono st.stats.v0stats →
      statsMono (processCandidates cfg st v0s).1.stats.v0stats := by
  intro v0s
  induction v0s with
  | nil => intro st h; exact h
  | cons e rest ih =>
      intro st h
      rw [processCandidates_cons_fst]
      refine ih (buildV0Candidate cfg st e.cand).state ?_
      rw [buildV0Candidate_stats]
      exact bumpUpTo_mono _ _ h

theorem buildStrangenessTables_rows (cfg : V0Config) (st : BuilderState)
    (v0s : List V0Entry) :
    (buildStrangenessTables cfg st v0s).1 =
      (processCandidates cfg (batchEntryState st) v0s).2 := by
  rcases hpc : processCandidates cfg (batchEntryState st) v0s with ⟨st', rows⟩
  simp only [buildStrangenessTables, batchEntryState] at hpc ⊢
  rw [hpc]

theorem buildStrangenessTables_snapshot (cfg : V0Config) (st : BuilderState)
    (v0s : List V0Entry) :
    (buildStrangenessTables cfg st v0s).2.1 =
      (processCandidates cfg (batchEntryState st) v0s).1.stats := by
  rcases hpc : processCandidates cfg (batchEntryState st) v0s with ⟨st', rows⟩
  simp only [buildStrangenessTables, batchEntryState] at hpc ⊢
  rw [hpc]

/-- A thrown fit can never be accepted. -/
theorem build_throws_not_accepted (cfg : V0Config) (st : BuilderState)
    (c : V0CandInput) (h : c.fit = FitOutcome.throws) :
    (buildV0Candidate cfg st c).accepted = false := by
  obtain ⟨pt, nt, fit⟩ := c
  cases h
  simp only [buildV0Candidate]
  split_ifs <;> rfl

/-- A zero-candidate fit outcome is never accepted. -/
theorem build_zero_cand_not_accepted (cfg : V0Config) (st : BuilderState)
    (c : V0CandInput) (d : FitData) (h : c.fit = FitOutcome.ok 0 d) :
    (buildV0Candidate cfg st c).accepted = false := by
  obtain ⟨pt, nt, fit⟩ := c
  cases h
  simp only [buildV0Candidate]
  split_ifs <;> rfl

/-- The fitter is invoked exactly when the pre-fit filters pass. -/
theorem build_invoked_iff (cfg : V0Config) (st : BuilderState) (c : V0CandInput) :
    (buildV0Candidate cfg st c).fitterInvoked = true ↔ passesPreFitFilters cfg c := by
  obtain ⟨pt, nt, fit⟩ := c
  cases fit with
  | throws =>
      simp only [buildV0Candidate, passesPreFitFilters]
      split_ifs <;> simp_all
  | ok n d =>
      simp only [buildV0Candidate, passesPreFitFilters]
      split_ifs <;> simp_all

/-- Acceptance implies that the fitter was invoked. -/
theorem build_accepted_invoked (cfg : V0Config) (st : BuilderState)
    (c : V0CandInput) (h : (buildV0Candidate cfg st c).accepted = true) :
    (buildV0Candidate cfg st c).fitterInvoked = true := by
  obtain ⟨pt, nt, fit⟩ := c
  cases fit with
  | throws =>
      simp only [buildV0Candidate] at h ⊢
      split_ifs at h ⊢
  | ok n d =>
      simp only [buildV0Candidate] at h ⊢
      split_ifs at h ⊢
      simp_all

/-! ### Claim theorems -/

/-- Claim C1, counterexample: a single consumer subscribed to `V0Datas`
declaring `v0setting_radius = 150` (its own smallest declared default) does
not negotiate to 150 — the scan's initial sentinel 100 wins, so the negotiated
minimum-radius threshold is not the smallest declared default. -/
theorem c1_cex_radius_beyond_sentinel :
    declaredDefaults
        [{ name := "consumer-a", inputBindings := ["V0Datas"],
           options := [{ name := "v0setting_radius", defaultValue := 150 }] }]
        "v0setting_radius" = [150] ∧
    (negotiate
        [{ name := "consumer-a", inputBindings := ["V0Datas"],
           options := [{ name := "v0setting_radius", defaultValue := 150 }] }]).radius
      = 100 ∧
    (negotiate
        [{ name := "consumer-a", inputBindings := ["V0Datas"],
           options := [{ name := "v0setting_radius", defaultValue := 150 }] }]).radius
      ≠ 150 := by
  decide

/-- Claim C1, amended: for every workflow, the negotiated thresholds are the
per-threshold extrema of the declared consumer defaults clamped at the scan's
initial sentinels — the min of 100 and the declared `v0setting_cospa`,
`v0setting_dcapostopv`, `v0setting_dcanegtopv`, `v0setting_radius` defaults,
and the max of −100 and the declared `v0setting_dcav0dau` defaults; hence
exactly the loosest declared value whenever the declared defaults lie within
the sentinels (e.g. radius requests 0.5 and 0.9 negotiate to 0.5). -/
theorem c1_negotiated_thresholds_clamped (devices : List DeviceSpecM) :
    negotiate devices =
      { v0cospa := foldlMin 100 (declaredDefaults devices "v0setting_cospa")
        dcav0dau := foldlMax (-100) (declaredDefaults devices "v0setting_dcav0dau")
        dcapostopv := foldlMin 100 (declaredDefaults devices "v0setting_dcapostopv")
        dcanegtopv := foldlMin 100 (declaredDefaults devices "v0setting_dcanegtopv")
        radius := foldlMin 100 (declaredDefaults devices "v0setting_radius") } :=
  negotiate_spec devices

/-- Claim C2, counterexample: with autodetect enabled and no consumer
declaring any threshold, the negotiated `v0radius` is the sentinel 100, not
the builder's hard-coded default 0.9 — and it is strictly tighter (larger
minimum radius) than that default. -/
theorem c2_cex_autodetect_no_consumers :
    (applyAutodetect defaultConfig true []).v0radius = 100 ∧
    defaultConfig.v0radius = 9/10 ∧
    (applyAutodetect defaultConfig true []).v0radius ≠ defaultConfig.v0radius ∧
    defaultConfig.v0radius < (applyAutodetect defaultConfig true []).v0radius := by
  have h1 : (applyAutodetect defaultConfig true []).v0radius = 100 := rfl
  have h2 : defaultConfig.v0radius = 9/10 := rfl
  refine ⟨h1, h2, ?_, ?_⟩
  · rw [h1, h2]
    norm_num
  · rw [h1, h2]
    norm_num

/-- Claim C2, amended: when autodetect is enabled and no qualifying consumer
declares any of the five thresholds, `init` unconditionally overwrites all
five operating thresholds with the scan's initial sentinels
(`dcanegtopv = dcapostopv = v0cospa = v0radius = 100`, `dcav0dau = -100`),
i.e. maximally tight cuts, not the builder's hard-coded defaults; the
defaults survive only when autodetect is disabled. -/
theorem c2_no_consumers_thresholds_become_sentinels (cfg : V0Config)
    (devices : List DeviceSpecM)
    (h1 : declaredDefaults devices "v0setting_cospa" = [])
    (h2 : declaredDefaults devices "v0setting_dcav0dau" = [])
    (h3 : declaredDefaults devices "v0setting_dcapostopv" = [])
    (h4 : declaredDefaults devices "v0setting_dcanegtopv" = [])
    (h5 : declaredDefaults devices "v0setting_radius" = []) :
    applyAutodetect cfg true devices =
      { cfg with
          dcanegtopv := 100
          dcapostopv := 100
          v0cospa := 100
          dcav0dau := -100
          v0radius := 100 } ∧
    applyAutodetect cfg false devices = cfg := by
  constructor
  · simp [applyAutodetect, negotiate_spec, h1, h2, h3, h4, h5, foldlMin, foldlMax]
  · rfl

/-- Witness for the C2 amended theorem at the empty workflow. -/
theorem c2_no_consumers_thresholds_become_sentinels_witness :
    applyAutodetect defaultConfig true [] =
      { defaultConfig with
          dcanegtopv := 100
          dcapostopv := 100
          v0cospa := 100
          dcav0dau := -100
          v0radius := 100 } ∧
    applyAutodetect defaultConfig false [] = defaultConfig :=
  c2_no_consumers_thresholds_become_sentinels defaultConfig [] rfl rfl rfl rfl rfl

/-- Claim C3: starting from reset counters, after any batch the flushed stage
counters are monotonically non-increasing along the pipeline order
`kV0All ≥ kV0TPCrefit ≥ kV0CrossedRows ≥ kV0DCAxy ≥ kV0DCADau ≥ kV0CosPA ≥
kV0Radius`, and each candidate evaluation increments exactly the counters of
the prefix of stages it reached. -/
theorem c3_stage_counters_monotone (cfg : V0Config) (scratch : V0Candidate)
    (v0s : List V0Entry) :
    statsMono (buildStrangenessTables cfg ⟨resetHistos, scratch⟩ v0s).2.1.v0stats ∧
    ∀ (st : BuilderState) (c : V0CandInput),
      (buildV0Candidate cfg st c).state.stats.v0stats =
        bumpUpTo (reachedDepth cfg c) st.stats.v0stats := by
  constructor
  · rw [buildStrangenessTables_snapshot]
    exact processCandidates_stats_mono cfg v0s _ statsMono_zero
  · intro st c
    exact buildV0Candidate_stats cfg st c

/-- Claim C4: a candidate whose fit call throws (after passing the pre-fit
filters) is rejected, the dedicated exception counter is incremented by
exactly one, and — the containment half — the batch's emitted rows are exactly
those of the surrounding candidates, so processing continues past the
exception. -/
theorem c4_fitter_exception_contained (cfg : V0Config) (st st₀ : BuilderState)
    (e : V0Entry) (pre post : List V0Entry)
    (hpass : passesPreFitFilters cfg e.cand)
    (hthrow : e.cand.fit = FitOutcome.throws) :
    (buildV0Candidate cfg st e.cand).accepted = false ∧
    (buildV0Candidate cfg st e.cand).state.stats.exceptions =
      st.stats.exceptions + 1 ∧
    (buildStrangenessTables cfg st₀ (pre ++ e :: post)).1 =
      (buildStrangenessTables cfg st₀ pre).1 ++
        (buildStrangenessTables cfg st₀ post).1 := by
  refine ⟨build_throws_not_accepted cfg st e.cand hthrow, ?_, ?_⟩
  · rw [buildV0Candidate_exceptions, if_pos ⟨hpass, hthrow⟩]
  · rw [buildStrangenessTables_rows, buildStrangenessTables_rows,
      buildStrangenessTables_rows,
      (processCandidates_append cfg pre (e :: post) (batchEntryState st₀)).2]
    congr 1
    have hnot : (buildV0Candidate cfg
        (processCandidates cfg (batchEntryState st₀) pre).1 e.cand).accepted = false :=
      build_throws_not_accepted _ _ _ hthrow
    rw [processCandidates_cons_snd]
    simp only [hnot, Bool.false_eq_true, if_false, List.nil_append]
    exact processCandidates_rows_irrel cfg post _ _

/-- Witness for C4 at a concrete throwing candidate between concrete batches. -/
theorem c4_fitter_exception_contained_witness :
    (buildV0Candidate witnessConfig sampleState (sampleEntry throwingCand).cand).accepted = false ∧
    (buildV0Candidate witnessConfig sampleState (sampleEntry throwingCand).cand).state.stats.exceptions =
      sampleState.stats.exceptions + 1 ∧
    (buildStrangenessTables witnessConfig sampleState
        ([] ++ sampleEntry throwingCand :: [sampleEntry goodCand])).1 =
      (buildStrangenessTables witnessConfig sampleState []).1 ++
        (buildStrangenessTables witnessConfig sampleState [sampleEntry goodCand]).1 :=
  c4_fitter_exception_contained witnessConfig sampleState sampleState
    (sampleEntry throwingCand) [] [sampleEntry goodCand] (by decide) (by decide)

/-- Claim C5: a fit returning zero candidates without throwing is rejected
without touching the exception counter, so it is distinguishable from a
thrown numerical failure (which increments the counter, cf. C4). -/
theorem c5_zero_candidates_not_an_exception (cfg : V0Config)
    (st : BuilderState) (c : V0CandInput) (d : FitData)
    (_hpass : passesPreFitFilters cfg c)
    (hfit : c.fit = FitOutcome.ok 0 d) :
    (buildV0Candidate cfg st c).accepted = false ∧
    (buildV0Candidate cfg st c).state.stats.exceptions = st.stats.exceptions := by
  refine ⟨build_zero_cand_not_accepted cfg st c d hfit, ?_⟩
  have hne : ¬ (passesPreFitFilters cfg c ∧ c.fit = FitOutcome.throws) := by
    rintro ⟨-, hthrow⟩
    rw [hfit] at hthrow
    exact FitOutcome.noConfusion hthrow
  rw [buildV0Candidate_exceptions, if_neg hne]
  exact Nat.add_zero _

/-- Witness for C5 at a concrete zero-candidate fit. -/
theorem c5_zero_candidates_not_an_exception_witness :
    (buildV0Candidate witnessConfig sampleState zeroCand).accepted = false ∧
    (buildV0Candidate witnessConfig sampleState zeroCand).state.stats.exceptions =
      sampleState.stats.exceptions :=
  c5_zero_candidates_not_an_exception witnessConfig sampleState zeroCand
    sampleFitData (by decide) (by decide)

/-- Claim C6: every accepted candidate's emitted record satisfies all
configured topological cuts — DCA between daughters at most `dcav0dau`,
cosine of pointing angle at least `v0cospa`, transverse radius at least
`v0radius`, and both daughters' `|DCAxy|` at least their configured minimums —
and a rejected candidate contributes no output row. -/
theorem c6_emitted_candidates_pass_cuts (cfg : V0Config) (st : BuilderState)
    (c : V0CandInput)
    (hacc : (buildV0Candidate cfg st c).accepted = true) :
    ((buildV0Candidate cfg st c).state.v0candidate.dcaV0dau ≤ cfg.dcav0dau ∧
      cfg.v0cospa ≤ (buildV0Candidate cfg st c).state.v0candidate.cosPA ∧
      cfg.v0radius ≤ (buildV0Candidate cfg st c).state.v0candidate.V0radius ∧
      cfg.dcapostopv ≤ |(buildV0Candidate cfg st c).state.v0candidate.posDCAxy| ∧
      cfg.dcanegtopv ≤ |(buildV0Candidate cfg st c).state.v0candidate.negDCAxy|) ∧
    ∀ (st' : BuilderState) (e : V0Entry) (rest : List V0Entry),
      (buildV0Candidate cfg st' e.cand).accepted = false →
      (processCandidates cfg st' (e :: rest)).2 =
        (processCandidates cfg (buildV0Candidate cfg st' e.cand).state rest).2 := by
  constructor
  · obtain ⟨pt, nt, fit⟩ := c
    cases fit with
    | throws =>
        simp only [buildV0Candidate] at hacc ⊢
        split_ifs at hacc ⊢
    | ok n d =>
        simp only [buildV0Candidate] at hacc ⊢
        split_ifs at hacc ⊢
        simp_all [not_or, not_lt]
  · intro st' e rest hrej
    rw [processCandidates_cons_snd]
    simp only [hrej, Bool.false_eq_true, if_false, List.nil_append]

/-- Witness for C6 at a concrete accepted candidate. -/
theorem c6_emitted_candidates_pass_cuts_witness :
    (buildV0Candidate witnessConfig sampleState goodCand).state.v0candidate.dcaV0dau ≤
      witnessConfig.dcav0dau ∧
    witnessConfig.v0cospa ≤
      (buildV0Candidate witnessConfig sampleState goodCand).state.v0candidate.cosPA ∧
    witnessConfig.v0radius ≤
      (buildV0Candidate witnessConfig sampleState goodCand).state.v0candidate.V0radius ∧
    witnessConfig.dcapostopv ≤
      |(buildV0Candidate witnessConfig sampleState goodCand).state.v0candidate.posDCAxy| ∧
    witnessConfig.dcanegtopv ≤
      |(buildV0Candidate witnessConfig sampleState goodCand).state.v0candidate.negDCAxy| :=
  (c6_emitted_candidates_pass_cuts witnessConfig sampleState goodCand (by decide)).1

/-- Claim C7: the DCA-to-primary-vertex prefilter precedes the fit — a
candidate with either daughter's `|DCAxy|` strictly below its configured
minimum is rejected with the fitter never invoked, and the fitter is only
invoked on candidates whose daughters both have `|DCAxy|` at or above the
minimum. -/
theorem c7_dca_prefilter_before_fit (cfg : V0Config) (st : BuilderState)
    (c : V0CandInput) :
    ((|c.posTrack.dcaXY| < cfg.dcapostopv ∨ |c.negTrack.dcaXY| < cfg.dcanegtopv) →
      (buildV0Candidate cfg st c).accepted = false ∧
      (buildV0Candidate cfg st c).fitterInvoked = false) ∧
    ((buildV0Candidate cfg st c).fitterInvoked = true →
      cfg.dcapostopv ≤ |c.posTrack.dcaXY| ∧ cfg.dcanegtopv ≤ |c.negTrack.dcaXY|) := by
  constructor
  · intro hfail
    have hnp : ¬ passesPreFitFilters cfg c := by
      rintro ⟨-, -, h3⟩
      exact h3 hfail
    have hinv : (buildV0Candidate cfg st c).fitterInvoked = false := by
      cases hb : (buildV0Candidate cfg st c).fitterInvoked
      · rfl
      · exact absurd ((build_invoked_iff cfg st c).mp hb) hnp
    refine ⟨?_, hinv⟩
    cases hb : (buildV0Candidate cfg st c).accepted
    · rfl
    · exact absurd ((build_invoked_iff cfg st c).mp
        (build_accepted_invoked cfg st c hb)) hnp
  · intro hinv
    obtain ⟨-, -, h3⟩ := (build_invoked_iff cfg st c).mp hinv
    rw [not_or] at h3
    exact ⟨not_lt.mp h3.1, not_lt.mp h3.2⟩

/-- Witness for C7: a primary-like daughter is rejected without a fit, and an
invoked fit implies both daughters passed the DCA minimum. -/
theorem c7_dca_prefilter_before_fit_witness :
    ((buildV0Candidate witnessConfig sampleState primaryLikeCand).accepted = false ∧
     (buildV0Candidate witnessConfig sampleState primaryLikeCand).fitterInvoked = false) ∧
    (witnessConfig.dcapostopv ≤ |goodCand.posTrack.dcaXY| ∧
     witnessConfig.dcanegtopv ≤ |goodCand.negTrack.dcaXY|) :=
  ⟨(c7_dca_prefilter_before_fit witnessConfig sampleState primaryLikeCand).1 (by decide),
   (c7_dca_prefilter_before_fit witnessConfig sampleState goodCand).2 (by decide)⟩

/-- Claim C8: `init` is fatal exactly when no process switch is enabled or two
mutually exclusive switches are enabled together, and every single-mode
configuration passes the check. -/
theorem c8_process_mode_validation :
    (∀ b2 b3 b3a : Bool,
      initProcessFlagsFatal b2 b3 b3a =
        ((!b2 && !b3 && !b3a) || (b2 && b3) || (b2 && b3a) || (b3 && b3a))) ∧
    initProcessFlagsFatal true false false = false ∧
    initProcessFlagsFatal false true false = false ∧
    initProcessFlagsFatal false false true = false := by
  decide

/-- Claim C9: the builder is deterministic over a batch — re-running
`buildStrangenessTables` on the same immutable inputs from the state the first
run left behind emits an identical row list, because acceptance and the
emitted scratch fields never depend on the incoming mutable state. -/
theorem c9_batch_idempotent (cfg : V0Config) (st : BuilderState)
    (v0s : List V0Entry) :
    (buildStrangenessTables cfg (buildStrangenessTables cfg st v0s).2.2 v0s).1 =
      (buildStrangenessTables cfg st v0s).1 := by
  rw [buildStrangenessTables_rows, buildStrangenessTables_rows]
  exact processCandidates_rows_irrel cfg v0s _ _

/-- Claim C10: evaluation at the failing input — with a single V0 and no
V0Data rows, the first indexed write `lIndices[0] = -1` already lands outside
the vector's size (`reserve` does not resize), so the link-builder loop hits
undefined behaviour instead of emitting the one-row link table. -/
theorem c10_link_builder_out_of_bounds :
    ((CppIntVector.mk [] 0).reserve 1).writeAt 0 (-1) = none ∧
    v0DataLinkProcess 1 [] = none := by
  decide

end LambdaKZero
